import Mathlib

/-!
Shallow embedding of the authentication/session lifecycle of the
`todo-proshore` backend (`src/backend/src/routes/auth.ts`,
`src/backend/src/middleware/auth.ts`, entity `User.entity.ts`).

Modelling conventions:
* The relational store is a `List User` (`DB`); TypeORM `findOneBy`
  becomes `List.find?`, and `save` on an existing row becomes a map
  keyed on the primary id.
* Time is a natural number of milliseconds (`Date.now()`); token `exp`
  claims are in seconds (`Math.floor(Date.now() / 1000)` becomes
  `nowMs / 1000`).
* JWTs: HS256 signing is deterministic, so a signed token is represented
  by its payload `(sub, exp)` together with the signing secret; string
  equality of token strings coincides with equality of these records,
  and `jsonwebtoken.verify` succeeds exactly when the secret matches and
  the token is unexpired (`clockTimestamp < exp`).
* argon2: a salted hash is represented by the hashed password plus the
  random salt; `argon2.verify(h, p)` holds iff `h` hashes `p`
  (collisions are ignored).
* Randomness (`Math.random()`, `crypto.randomBytes`, uuid generation)
  is passed in as explicit parameters to each operation.
* The mailer is assumed to succeed; `@IsEmail` format validation is
  abstracted away (emails are opaque strings), while the length checks
  of the DTOs (`@MinLength`, `@IsNotEmpty`) are kept.
-/

namespace TodoProshore

/-- A signed JWT, represented by its payload and the signing secret
(HS256 signing is deterministic, so this determines the token string). -/
structure Jwt where
  sub : String
  exp : Nat
  secret : String
deriving DecidableEq, Repr

/-- Model of `jsonwebtoken.sign(\x7b sub, exp \x7d, secret)`. -/
def signJwt (secret : String) (sub : String) (exp : Nat) : Jwt :=
  ⟨sub, exp, secret⟩

/-- Model of `jsonwebtoken.verify(token, secret)` at clock second `nowSec`:
returns the `sub` claim when the signature matches and the token is not
expired, and `none` when verification throws. -/
def verifyJwt (tok : Jwt) (secret : String) (nowSec : Nat) : Option String :=
  if tok.secret = secret ∧ nowSec < tok.exp then some tok.sub else none

/-- An argon2 hash: the hashed password together with its random salt.
`argon2.hash` is modelled as `argonHash`; collisions are ignored. -/
structure Hash where
  pw : String
  salt : Nat
deriving DecidableEq, Repr

/-- Model of `argon2.hash(pw)` with random salt `salt`. -/
def argonHash (pw : String) (salt : Nat) : Hash := ⟨pw, salt⟩

/-- Model of `argon2.verify(h, pw)`. -/
def argonVerify (h : Hash) (pw : String) : Bool := h.pw == pw

/-- The `User` entity (`User.entity.ts`): email, argon2 password hash,
optional refresh token, optional reset token + expiry (ms), optional
email-verification OTP + expiry (ms), and the verified flag whose
column default is `false`. -/
structure User where
  id : String
  email : String
  password : Hash
  refreshToken : Option Jwt := none
  resetPasswordToken : Option String := none
  resetPasswordExpires : Option Nat := none
  emailVerificationOtp : Option String := none
  emailVerificationExpires : Option Nat := none
  isEmailVerified : Bool := false
deriving DecidableEq, Repr

/-- The user table. -/
abbrev DB := List User

/-- Environment configuration (parsed `env` values, in seconds). -/
structure Env where
  jwtSecret : String
  accessTokenExpiresIn : Nat
  refreshTokenExpiresIn : Nat
  resetPasswordExpiresIn : Nat
deriving DecidableEq, Repr

/-- The JSON response of a handler: status code plus the body fields the
auth handlers emit (absent fields are `none`). -/
structure Resp where
  status : Nat
  error : Option String := none
  message : Option String := none
  requiresVerification : Option Bool := none
  accessToken : Option Jwt := none
  refreshToken : Option Jwt := none
deriving DecidableEq, Repr

/-- Helper `generateTokens(userId)`: a `(accessToken, refreshToken)` pair signed
with the JWT secret, expiring `accessTokenExpiresIn` resp.
`refreshTokenExpiresIn` seconds from `Math.floor(Date.now() / 1000)`. -/
def generateTokens (env : Env) (nowMs : Nat) (userId : String) : Jwt × Jwt :=
  (signJwt env.jwtSecret userId (nowMs / 1000 + env.accessTokenExpiresIn),
   signJwt env.jwtSecret userId (nowMs / 1000 + env.refreshTokenExpiresIn))

/-- The numeric value of `Math.floor(100000 + Math.random() * 900000)`;
the sample `Math.random() * 900000 ∈ [0, 900000)` is embedded as
`rand % 900000`. -/
def otpNat (rand : Nat) : Nat := 100000 + rand % 900000

/-- Helper `generateOtp()` (`auth.ts` lines 50-52). -/
def generateOtp (rand : Nat) : String := toString (otpNat rand)

/-- Model of `crypto.randomBytes(n).toString('hex')`: two hex digits per byte. -/
def hexOfBytes (bs : List Nat) : List Char :=
  bs.foldr (fun b acc => (Nat.digitChar (b / 16 % 16)) :: (Nat.digitChar (b % 16)) :: acc) []

/-- Handler `POST /api/auth/register` (`auth.ts` lines 177-243): validation,
uniqueness check, then creation of an unverified account carrying a
fresh OTP expiring 10 minutes from now.  No tokens are issued. -/
def registerOp (nowMs rand salt : Nat) (newId email pw : String) (db : DB) : Resp × DB :=
  if pw.length < 6 then ({ status := 400 }, db)
  else
    match db.find? fun u => u.email == email with
    | some _ => ({ status := 400, error := some "Email already registered" }, db)
    | none =>
      ({ status := 201,
         message := some "Registration successful. Please check your email for verification code.",
         requiresVerification := some true },
       db ++ [{ id := newId, email := email, password := argonHash pw salt,
                emailVerificationOtp := some (generateOtp rand),
                emailVerificationExpires := some (nowMs + 10 * 60 * 1000),
                isEmailVerified := false }])

/-- Handler `POST /api/auth/login` (`auth.ts` lines 321-366): credential check,
then the email-verified gate, then token issuance with the refresh token
persisted on the account in the same step.  Credential failures get a
400 `Invalid credentials`. -/
def loginOp (env : Env) (nowMs : Nat) (email pw : String) (db : DB) : Resp × DB :=
  if pw.length = 0 then ({ status := 400 }, db)
  else
    match db.find? fun u => u.email == email with
    | none => ({ status := 400, error := some "Invalid credentials" }, db)
    | some u =>
      if argonVerify u.password pw then
        if u.isEmailVerified then
          ({ status := 200, message := some "Logged in",
             accessToken := some (generateTokens env nowMs u.id).1,
             refreshToken := some (generateTokens env nowMs u.id).2 },
           db.map fun v => if v.id = u.id then
             { u with refreshToken := some (generateTokens env nowMs u.id).2 } else v)
        else
          ({ status := 400, error := some "Email not verified",
             message := some "Please verify your email before logging in.",
             requiresVerification := some true }, db)
      else ({ status := 400, error := some "Invalid credentials" }, db)

/-- Handler `POST /api/auth/verify-otp` (`auth.ts` lines 462-505): rejects when
the stored OTP is absent, differs from the submitted code, or its
expiry is absent or in the past; on success flags the account verified
and clears the OTP and its expiry. -/
def verifyOtpOp (nowMs : Nat) (email otp : String) (db : DB) : Resp × DB :=
  if otp.length < 6 then ({ status := 400 }, db)
  else
    match db.find? fun u => u.email == email with
    | none => ({ status := 404, error := some "User not found" }, db)
    | some u =>
      match u.emailVerificationOtp, u.emailVerificationExpires with
      | some stored, some expiry =>
        if stored = otp ∧ ¬ expiry < nowMs then
          ({ status := 200, message := some "Email verified successfully" },
           db.map fun v => if v.id = u.id then
             { u with isEmailVerified := true, emailVerificationOtp := none,
                      emailVerificationExpires := none } else v)
        else ({ status := 400, error := some "Invalid or expired OTP" }, db)
      | some _, none => ({ status := 400, error := some "Invalid or expired OTP" }, db)
      | none, _ => ({ status := 400, error := some "Invalid or expired OTP" }, db)

/-- Handler `POST /api/auth/resend-otp` (`auth.ts` lines 594-661): for a found,
unverified account, overwrites the stored OTP and expiry with fresh
values (the save happens before the mail is sent). -/
def resendOtpOp (nowMs rand : Nat) (email : String) (db : DB) : Resp × DB :=
  match db.find? fun u => u.email == email with
  | none => ({ status := 404, error := some "User not found" }, db)
  | some u =>
    if u.isEmailVerified then ({ status := 400, error := some "Email is already verified" }, db)
    else
      ({ status := 200, message := some "OTP resent successfully" },
       db.map fun v => if v.id = u.id then
         { u with emailVerificationOtp := some (generateOtp rand),
                  emailVerificationExpires := some (nowMs + 10 * 60 * 1000) } else v)

/-- Handler `POST /api/auth/refresh` (`auth.ts` lines 723-755): missing token,
failed JWT verification (the `catch`), unknown account, or mismatch
with the stored token all yield 401 with nothing changed; on success a
fresh pair is issued and the new refresh token replaces the stored one. -/
def refreshOp (env : Env) (nowMs : Nat) (tok? : Option Jwt) (db : DB) : Resp × DB :=
  match tok? with
  | none => ({ status := 401, error := some "Refresh token required" }, db)
  | some tok =>
    match verifyJwt tok env.jwtSecret (nowMs / 1000) with
    | none => ({ status := 401, error := some "Invalid refresh token" }, db)
    | some sub =>
      match db.find? fun u => u.id == sub with
      | none => ({ status := 401, error := some "Invalid refresh token" }, db)
      | some u =>
        if u.refreshToken = some tok then
          ({ status := 200, message := some "Tokens refreshed",
             accessToken := some (generateTokens env nowMs u.id).1,
             refreshToken := some (generateTokens env nowMs u.id).2 },
           db.map fun v => if v.id = u.id then
             { u with refreshToken := some (generateTokens env nowMs u.id).2 } else v)
        else ({ status := 401, error := some "Invalid refresh token" }, db)

/-- Handler `POST /api/auth/logout` (`auth.ts` lines 799-821): always answers
200; when a verifiable refresh token naming an existing account is
presented, that account's stored refresh token is cleared. -/
def logoutOp (env : Env) (nowMs : Nat) (tok? : Option Jwt) (db : DB) : Resp × DB :=
  match tok? with
  | none => ({ status := 200, message := some "Logged out" }, db)
  | some tok =>
    match verifyJwt tok env.jwtSecret (nowMs / 1000) with
    | none => ({ status := 200, message := some "Logged out" }, db)
    | some sub =>
      match db.find? fun u => u.id == sub with
      | none => ({ status := 200, message := some "Logged out" }, db)
      | some u =>
        ({ status := 200, message := some "Logged out" },
         db.map fun v => if v.id = u.id then { u with refreshToken := none } else v)

/-- Outcome of the Google ticket verification in `POST /api/auth/google`:
no token in the body, a verified ticket without payload/email, or a
verified payload carrying an email. -/
inductive GoogleCheck where
  | missing
  | invalid
  | valid (email : String)
deriving DecidableEq, Repr

/-- Handler `POST /api/auth/google` (`auth.ts` lines 888-933): finds the account
by the federated email or provisions one (entity defaults, random
16-byte hex password), then issues a pair and persists the refresh
token — with no check of `isEmailVerified` anywhere. -/
def googleOp (env : Env) (nowMs salt : Nat) (newId : String) (rnd : List Nat)
    (check : GoogleCheck) (db : DB) : Resp × DB :=
  match check with
  | .missing => ({ status := 400, error := some "Token is required" }, db)
  | .invalid => ({ status := 400, error := some "Invalid Google token" }, db)
  | .valid email =>
    match db.find? fun u => u.email == email with
    | some u =>
      ({ status := 200, message := some "Signed in with Google",
         accessToken := some (generateTokens env nowMs u.id).1,
         refreshToken := some (generateTokens env nowMs u.id).2 },
       db.map fun v => if v.id = u.id then
         { u with refreshToken := some (generateTokens env nowMs u.id).2 } else v)
    | none =>
      let newU : User :=
        { id := newId, email := email,
          password := argonHash (String.mk (hexOfBytes rnd)) salt }
      ({ status := 200, message := some "Signed in with Google",
         accessToken := some (generateTokens env nowMs newId).1,
         refreshToken := some (generateTokens env nowMs newId).2 },
       (db ++ [newU]).map fun v => if v.id = newId then
         { newU with refreshToken := some (generateTokens env nowMs newId).2 } else v)

/-- Handler `POST /api/auth/forgot-password` (`auth.ts` lines 993-1025): a falsy
email gives 400; otherwise, whether or not the email is registered, the
response is 200 with the same neutral message — only the side effect
(storing a reset token with its configured expiry) differs. -/
def forgotPasswordOp (env : Env) (nowMs : Nat) (email? : Option String)
    (tokenHex : String) (db : DB) : Resp × DB :=
  match email? with
  | none => ({ status := 400, error := some "Email is required" }, db)
  | some email =>
    match db.find? fun u => u.email == email with
    | none =>
      ({ status := 200, message := some "If that email is registered, a reset link has been sent." }, db)
    | some u =>
      ({ status := 200, message := some "If that email is registered, a reset link has been sent." },
       db.map fun v => if v.id = u.id then
         { u with resetPasswordToken := some tokenHex,
                  resetPasswordExpires := some (nowMs + env.resetPasswordExpiresIn * 1000) } else v)

/-- Handler `POST /api/auth/reset-password` (`auth.ts` lines 1087-1115): looks
the account up by the reset token; a missing account or missing or past
expiry gives 400; on success the password is re-hashed and the token and
expiry are cleared. -/
def resetPasswordOp (nowMs salt : Nat) (token? newPw? : Option String) (db : DB) : Resp × DB :=
  match token?, newPw? with
  | some token, some newPw =>
    match db.find? fun u => u.resetPasswordToken == some token with
    | none => ({ status := 400, error := some "Invalid or expired token" }, db)
    | some u =>
      match u.resetPasswordExpires with
      | none => ({ status := 400, error := some "Invalid or expired token" }, db)
      | some expiry =>
        if expiry < nowMs then ({ status := 400, error := some "Invalid or expired token" }, db)
        else
          ({ status := 200, message := some "Password has been reset" },
           db.map fun v => if v.id = u.id then
             { u with password := argonHash newPw salt,
                      resetPasswordToken := none, resetPasswordExpires := none } else v)
  | _, _ => ({ status := 400, error := some "Token and new password are required" }, db)

/-- A mutating auth endpoint call together with its request data and the
nondeterministic inputs (clock, randomness) it consumes. -/
inductive Op where
  | register (nowMs rand salt : Nat) (newId email pw : String)
  | login (nowMs : Nat) (email pw : String)
  | verifyOtp (nowMs : Nat) (email otp : String)
  | resendOtp (nowMs rand : Nat) (email : String)
  | refresh (nowMs : Nat) (tok? : Option Jwt)
  | logout (nowMs : Nat) (tok? : Option Jwt)
  | google (nowMs salt : Nat) (newId : String) (rnd : List Nat) (check : GoogleCheck)
  | forgotPassword (nowMs : Nat) (email? : Option String) (tokenHex : String)
  | resetPassword (nowMs salt : Nat) (token? newPw? : Option String)
deriving Repr

/-- Run one endpoint call against the store. -/
def runOp (env : Env) (op : Op) (db : DB) : Resp × DB :=
  match op with
  | .register nowMs rand salt newId email pw => registerOp nowMs rand salt newId email pw db
  | .login nowMs email pw => loginOp env nowMs email pw db
  | .verifyOtp nowMs email otp => verifyOtpOp nowMs email otp db
  | .resendOtp nowMs rand email => resendOtpOp nowMs rand email db
  | .refresh nowMs tok? => refreshOp env nowMs tok? db
  | .logout nowMs tok? => logoutOp env nowMs tok? db
  | .google nowMs salt newId rnd check => googleOp env nowMs salt newId rnd check db
  | .forgotPassword nowMs email? tokenHex => forgotPasswordOp env nowMs email? tokenHex db
  | .resetPassword nowMs salt token? newPw? => resetPasswordOp nowMs salt token? newPw? db

/-- The wall-clock instant (ms) at which a call executes. -/
def Op.now : Op → Nat
  | .register nowMs _ _ _ _ _ => nowMs
  | .login nowMs _ _ => nowMs
  | .verifyOtp nowMs _ _ => nowMs
  | .resendOtp nowMs _ _ => nowMs
  | .refresh nowMs _ => nowMs
  | .logout nowMs _ => nowMs
  | .google nowMs _ _ _ _ => nowMs
  | .forgotPassword nowMs _ _ => nowMs
  | .resetPassword nowMs _ _ _ => nowMs

/-- Ghost map: for each account id, the refresh token most recently
issued for it (`none` when none was ever issued). -/
abbrev Ghost := String → Option Jwt

/-- A response carrying a refresh token records it as the most recently
issued one for the account it names. -/
def updateGhost (g : Ghost) (resp : Resp) : Ghost :=
  match resp.refreshToken with
  | none => g
  | some rt => fun i => if i = rt.sub then some rt else g i

/-- One endpoint call, tracked together with the ghost issuance map. -/
def GStep (env : Env) (s s' : DB × Ghost) : Prop :=
  ∃ op : Op, s' = ((runOp env op s.1).2, updateGhost s.2 (runOp env op s.1).1)

/-- States reachable from the empty store by endpoint calls. -/
def GReachable (env : Env) (s : DB × Ghost) : Prop :=
  Relation.ReflTransGen (GStep env) ([], fun _ => none) s

/-- The single-session invariant: every stored refresh token is the one
most recently issued for that account. -/
def SessionInv (db : DB) (g : Ghost) : Prop :=
  ∀ u ∈ db, ∀ t : Jwt, u.refreshToken = some t → g u.id = some t

/-- The token `tok` is stored as no account's current refresh token. -/
def OldGone (tok : Jwt) (db : DB) : Prop :=
  ∀ u ∈ db, u.refreshToken ≠ some tok

/-- A call whose refresh-token issuance (if any) cannot reproduce the
retired token `tok`: its issuance second plus the refresh lifetime
differs from the `exp` claim of `tok`. -/
def GoodStep (env : Env) (tok : Jwt) (db db' : DB) : Prop :=
  ∃ op : Op, db' = (runOp env op db).2 ∧
    op.now / 1000 + env.refreshTokenExpiresIn ≠ tok.exp

/-- Frame fact about one post-state row `u'` of a call returning `resp`:
its stored refresh token is absent, carried over unchanged from a
pre-state row with the same id (and then the call issued no token for
this id), or exactly the token the call just issued for it. -/
def carries (db : DB) (resp : Resp) (u' : User) : Prop :=
  u'.refreshToken = none ∨
  ((∃ u ∈ db, u.id = u'.id ∧ u.refreshToken = u'.refreshToken) ∧
    ∀ rt : Jwt, resp.refreshToken = some rt → u'.id ≠ rt.sub) ∨
  (∃ rt : Jwt, resp.refreshToken = some rt ∧ u'.refreshToken = some rt ∧ rt.sub = u'.id)

/-- Number of `User` fields on which two records differ. -/
def diffFields (u v : User) : Nat :=
  (if u.id = v.id then 0 else 1) +
  (if u.email = v.email then 0 else 1) +
  (if u.password = v.password then 0 else 1) +
  (if u.refreshToken = v.refreshToken then 0 else 1) +
  (if u.resetPasswordToken = v.resetPasswordToken then 0 else 1) +
  (if u.resetPasswordExpires = v.resetPasswordExpires then 0 else 1) +
  (if u.emailVerificationOtp = v.emailVerificationOtp then 0 else 1) +
  (if u.emailVerificationExpires = v.emailVerificationExpires then 0 else 1) +
  (if u.isEmailVerified = v.isEmailVerified then 0 else 1)

/-- The `Authorization` header as the middleware sees it: absent or not
`Bearer `-prefixed, or carrying a bearer token. -/
inductive AuthHeader where
  | missing
  | bearer (tok : Jwt)
deriving DecidableEq, Repr

/-- The `authenticate` middleware (`middleware/auth.ts`): 401 on a
missing header, failed verification, or unknown account; otherwise the
authenticated user. -/
def authenticateOp (env : Env) (nowMs : Nat) (hdr : AuthHeader) (db : DB) :
    Except (Nat × String) User :=
  match hdr with
  | .missing => .error (401, "Authorization header required")
  | .bearer tok =>
    match verifyJwt tok env.jwtSecret (nowMs / 1000) with
    | none => .error (401, "Invalid token")
    | some sub =>
      match db.find? fun u => u.id == sub with
      | none => .error (401, "User not found")
      | some u => .ok u

/-! ### Concrete fixtures (used to evaluate the development on closed
inputs) -/

/-- A small configuration: 100-second refresh lifetime. -/
def envEx : Env :=
  { jwtSecret := "s", accessTokenExpiresIn := 900,
    refreshTokenExpiresIn := 100, resetPasswordExpiresIn := 3600 }

/-- A refresh token for account `u1` issued at second 0 under `envEx`. -/
def tokEx : Jwt := ⟨"u1", 100, "s"⟩

/-- A verified account holding `tokEx` as its current refresh token. -/
def userEx : User :=
  { id := "u1", email := "a@b.c", password := argonHash "secret1" 0,
    refreshToken := some tokEx, isEmailVerified := true }

def dbEx : DB := [userEx]

/-- An unverified account with a live OTP (expiring at ms 600000). -/
def userOtp : User :=
  { id := "u2", email := "b@b.c", password := argonHash "secret1" 0,
    emailVerificationOtp := some "100000",
    emailVerificationExpires := some 600000 }

/-- State of `userOtp` after a successful OTP verification. -/
def userOtpAfter : User :=
  { userOtp with isEmailVerified := true, emailVerificationOtp := none,
                 emailVerificationExpires := none }

/-- An account with a live password-reset token (expiring at ms 600000). -/
def userReset : User :=
  { id := "u3", email := "c@b.c", password := argonHash "secret1" 0,
    resetPasswordToken := some "rtok1", resetPasswordExpires := some 600000,
    isEmailVerified := true }

/-- A Google sign-in call that provisions a fresh account. -/
def opGoogleEx : Op := .google 0 0 "g1" [1, 2] (.valid "g@x.y")

/-! ### Basic lemmas -/

theorem verifyJwt_pos {tok : Jwt} {s : String} {n : Nat}
    (h1 : tok.secret = s) (h2 : n < tok.exp) :
    verifyJwt tok s n = some tok.sub := by
  simp [verifyJwt, h1, h2]

theorem verifyJwt_eq_some {tok : Jwt} {s : String} {n : Nat} {sub : String}
    (h : verifyJwt tok s n = some sub) :
    tok.secret = s ∧ n < tok.exp ∧ sub = tok.sub := by
  by_cases hc : tok.secret = s ∧ n < tok.exp
  · simp [verifyJwt, hc] at h
    exact ⟨hc.1, hc.2, h.symm⟩
  · simp [verifyJwt, hc] at h

theorem hexOfBytes_length (bs : List Nat) : (hexOfBytes bs).length = 2 * bs.length := by
  induction bs with
  | nil => rfl
  | cons b t ih =>
    simp only [hexOfBytes, List.foldr_cons, List.length_cons] at *
    omega

theorem otpNat_bounds (rand : Nat) : 100000 ≤ otpNat rand ∧ otpNat rand ≤ 999999 := by
  unfold otpNat
  have := Nat.mod_lt rand (show 0 < 900000 by omega)
  omega

theorem otpNat_digits (rand : Nat) : (Nat.digits 10 (otpNat rand)).length = 6 := by
  have hb := otpNat_bounds rand
  rw [Nat.digits_len 10 _ (by omega) (by omega)]
  have : Nat.log 10 (otpNat rand) = 5 :=
    Nat.log_eq_of_pow_le_of_lt_pow (by norm_num; omega) (by norm_num; omega)
  omega

/-- First-match lookup after an id-keyed update that still satisfies the
predicate: the updated row is found. -/
theorem find?_map_keyed (db : DB) (p : User → Bool) (u u' : User)
    (hfind : db.find? p = some u) (hp : p u' = true) :
    (db.map fun v => if v.id = u.id then u' else v).find? p = some u' := by
  induction db with
  | nil => simp at hfind
  | cons v t ih =>
    by_cases hv : p v
    · rw [List.find?_cons_of_pos _ hv] at hfind
      cases hfind
      simp only [List.map_cons, if_pos rfl]
      exact List.find?_cons_of_pos _ hp
    · rw [List.find?_cons_of_neg _ hv] at hfind
      by_cases hvid : v.id = u.id
      · simp only [List.map_cons, if_pos hvid]
        exact List.find?_cons_of_pos _ hp
      · simp only [List.map_cons, if_neg hvid]
        rw [List.find?_cons_of_neg _ hv]
        exact ih hfind

/-- Lookup after an id-keyed update, when only rows with the key could
match and the updated row no longer matches: nothing is found. -/
theorem find?_map_keyed_none (db : DB) (key : String) (p : User → Bool) (u' : User)
    (hall : ∀ v ∈ db, p v = true → v.id = key) (hp : p u' = false) :
    (db.map fun v => if v.id = key then u' else v).find? p = none := by
  rw [List.find?_eq_none]
  intro x hx
  rcases List.mem_map.1 hx with ⟨v, hv, rfl⟩
  by_cases h : v.id = key
  · simp [h, hp]
  · simp only [if_neg h]
    intro hpv
    exact h (hall v hv hpv)

/-! ### Frame sub-lemmas for `carries` -/

theorem carries_self (db : DB) (resp : Resp) (hresp : resp.refreshToken = none)
    (u' : User) (hu' : u' ∈ db) : carries db resp u' :=
  Or.inr (Or.inl ⟨⟨u', hu', rfl, rfl⟩, fun rt hrt => by rw [hresp] at hrt; cases hrt⟩)

theorem carries_map_keep (db : DB) (resp : Resp) (hresp : resp.refreshToken = none)
    (w w' : User) (hw : w ∈ db) (hid : w'.id = w.id)
    (hrt : w'.refreshToken = w.refreshToken ∨ w'.refreshToken = none)
    (u' : User) (hu' : u' ∈ db.map fun v => if v.id = w.id then w' else v) :
    carries db resp u' := by
  rcases List.mem_map.1 hu' with ⟨v, hv, rfl⟩
  by_cases h : v.id = w.id
  · rw [if_pos h]
    rcases hrt with hrt | hrt
    · exact Or.inr (Or.inl ⟨⟨w, hw, hid.symm, hrt.symm⟩,
        fun rt hrt' => by rw [hresp] at hrt'; cases hrt'⟩)
    · exact Or.inl hrt
  · rw [if_neg h]
    exact carries_self db resp hresp v hv

theorem carries_issue (db base : DB) (resp : Resp) (rt : Jwt) (key : String) (w' : User)
    (hresp : resp.refreshToken = some rt) (hkey : rt.sub = key)
    (hw'id : w'.id = key) (hw'rt : w'.refreshToken = some rt)
    (hbase : ∀ v ∈ base, v ∈ db ∨ v.refreshToken = none)
    (u' : User) (hu' : u' ∈ base.map fun v => if v.id = key then w' else v) :
    carries db resp u' := by
  rcases List.mem_map.1 hu' with ⟨v, hv, rfl⟩
  by_cases h : v.id = key
  · rw [if_pos h]
    exact Or.inr (Or.inr ⟨rt, hresp, hw'rt, by rw [hkey, hw'id]⟩)
  · rw [if_neg h]
    rcases hbase v hv with hvdb | hvnone
    · exact Or.inr (Or.inl ⟨⟨v, hvdb, rfl, rfl⟩, fun rt' hrt' => by
        rw [hresp] at hrt'
        cases hrt'
        rw [hkey]
        exact h⟩)
    · exact Or.inl hvnone

/-! ### Per-endpoint case analyses -/

theorem registerOp_cases (nowMs rand salt : Nat) (newId email pw : String) (db : DB) :
    (¬ pw.length < 6 ∧ db.find? (fun v => v.email == email) = none ∧
       registerOp nowMs rand salt newId email pw db =
         ({ status := 201,
            message := some "Registration successful. Please check your email for verification code.",
            requiresVerification := some true },
          db ++ [{ id := newId, email := email, password := argonHash pw salt,
                   emailVerificationOtp := some (generateOtp rand),
                   emailVerificationExpires := some (nowMs + 10 * 60 * 1000),
                   isEmailVerified := false }]))
    ∨ ((registerOp nowMs rand salt newId email pw db).2 = db ∧
       (registerOp nowMs rand salt newId email pw db).1.refreshToken = none ∧
       (registerOp nowMs rand salt newId email pw db).1.status = 400) := by
  by_cases hlen : pw.length < 6
  · right
    simp [registerOp, hlen]
  · cases hf : db.find? fun v => v.email == email with
    | none =>
      left
      exact ⟨hlen, rfl, by simp [registerOp, hlen, hf]⟩
    | some u =>
      right
      simp [registerOp, hlen, hf]

theorem loginOp_cases (env : Env) (nowMs : Nat) (email pw : String) (db : DB) :
    (∃ u, db.find? (fun v => v.email == email) = some u ∧
       argonVerify u.password pw = true ∧ u.isEmailVerified = true ∧ ¬ pw.length = 0 ∧
       loginOp env nowMs email pw db =
         ({ status := 200, message := some "Logged in",
            accessToken := some (generateTokens env nowMs u.id).1,
            refreshToken := some (generateTokens env nowMs u.id).2 },
          db.map fun v => if v.id = u.id then
            { u with refreshToken := some (generateTokens env nowMs u.id).2 } else v))
    ∨ ((loginOp env nowMs email pw db).2 = db ∧
       (loginOp env nowMs email pw db).1.refreshToken = none ∧
       (loginOp env nowMs email pw db).1.status = 400) := by
  by_cases hlen : pw.length = 0
  · right
    simp [loginOp, hlen]
  · cases hf : db.find? fun v => v.email == email with
    | none =>
      right
      simp [loginOp, hlen, hf]
    | some u =>
      by_cases hpw : argonVerify u.password pw = true
      · by_cases hver : u.isEmailVerified = true
        · left
          exact ⟨u, rfl, hpw, hver, hlen, by simp [loginOp, hlen, hf, hpw, hver]⟩
        · right
          simp [loginOp, hlen, hf, hpw, hver]
      · right
        simp [loginOp, hlen, hf, hpw]

theorem verifyOtpOp_cases (nowMs : Nat) (email otp : String) (db : DB) :
    (∃ u stored e, db.find? (fun v => v.email == email) = some u ∧
       u.emailVerificationOtp = some stored ∧ u.emailVerificationExpires = some e ∧
       stored = otp ∧ ¬ e < nowMs ∧ ¬ otp.length < 6 ∧
       verifyOtpOp nowMs email otp db =
         ({ status := 200, message := some "Email verified successfully" },
          db.map fun v => if v.id = u.id then
            { u with isEmailVerified := true, emailVerificationOtp := none,
                     emailVerificationExpires := none } else v))
    ∨ ((verifyOtpOp nowMs email otp db).2 = db ∧
       (verifyOtpOp nowMs email otp db).1.refreshToken = none ∧
       (verifyOtpOp nowMs email otp db).1.status ≠ 200) := by
  by_cases hlen : otp.length < 6
  · right
    simp [verifyOtpOp, hlen]
  · cases hf : db.find? fun v => v.email == email with
    | none =>
      right
      simp [verifyOtpOp, hlen, hf]
    | some u =>
      cases ho : u.emailVerificationOtp with
      | none =>
        right
        simp [verifyOtpOp, hlen, hf, ho]
      | some stored =>
        cases he : u.emailVerificationExpires with
        | none =>
          right
          simp [verifyOtpOp, hlen, hf, ho, he]
        | some e =>
          by_cases hc : stored = otp ∧ ¬ e < nowMs
          · left
            exact ⟨u, stored, e, rfl, ho, he, hc.1, hc.2, hlen,
              by simp [verifyOtpOp, hlen, hf, ho, he, hc.1, hc.2]⟩
          · right
            simp only [Nat.not_lt] at hc
            refine ⟨?_, ?_, ?_⟩ <;> simp [verifyOtpOp, hlen, hf, ho, he, hc]

theorem resendOtpOp_cases (nowMs rand : Nat) (email : String) (db : DB) :
    (∃ u, db.find? (fun v => v.email == email) = some u ∧ u.isEmailVerified = false ∧
       resendOtpOp nowMs rand email db =
         ({ status := 200, message := some "OTP resent successfully" },
          db.map fun v => if v.id = u.id then
            { u with emailVerificationOtp := some (generateOtp rand),
                     emailVerificationExpires := some (nowMs + 10 * 60 * 1000) } else v))
    ∨ ((resendOtpOp nowMs rand email db).2 = db ∧
       (resendOtpOp nowMs rand email db).1.refreshToken = none ∧
       (resendOtpOp nowMs rand email db).1.status ≠ 200) := by
  cases hf : db.find? fun v => v.email == email with
  | none =>
    right
    simp [resendOtpOp, hf]
  | some u =>
    by_cases hver : u.isEmailVerified = true
    · right
      simp [resendOtpOp, hf, hver]
    · left
      have hvf : u.isEmailVerified = false := by simpa using hver
      exact ⟨u, rfl, hvf, by simp [resendOtpOp, hf, hvf]⟩

theorem refreshOp_cases (env : Env) (nowMs : Nat) (tok? : Option Jwt) (db : DB) :
    (∃ tok u, tok? = some tok ∧ tok.secret = env.jwtSecret ∧ nowMs / 1000 < tok.exp ∧
       db.find? (fun v => v.id == tok.sub) = some u ∧ u.refreshToken = some tok ∧
       refreshOp env nowMs tok? db =
         ({ status := 200, message := some "Tokens refreshed",
            accessToken := some (generateTokens env nowMs u.id).1,
            refreshToken := some (generateTokens env nowMs u.id).2 },
          db.map fun v => if v.id = u.id then
            { u with refreshToken := some (generateTokens env nowMs u.id).2 } else v))
    ∨ ((refreshOp env nowMs tok? db).1.status = 401 ∧
       (refreshOp env nowMs tok? db).2 = db ∧
       (refreshOp env nowMs tok? db).1.accessToken = none ∧
       (refreshOp env nowMs tok? db).1.refreshToken = none) := by
  cases tok? with
  | none =>
    right
    simp [refreshOp]
  | some tok =>
    cases hv : verifyJwt tok env.jwtSecret (nowMs / 1000) with
    | none =>
      right
      simp [refreshOp, hv]
    | some sub =>
      obtain ⟨hsec, hexp, hsub⟩ := verifyJwt_eq_some hv
      subst hsub
      cases hf : db.find? fun v => v.id == tok.sub with
      | none =>
        right
        simp [refreshOp, hv, hf]
      | some u =>
        by_cases hst : u.refreshToken = some tok
        · left
          exact ⟨tok, u, rfl, hsec, hexp, hf, hst, by simp [refreshOp, hv, hf, hst]⟩
        · right
          simp [refreshOp, hv, hf, hst]

theorem refreshOp_success_eq (env : Env) (nowMs : Nat) (tok : Jwt) (u : User) (db : DB)
    (hsec : tok.secret = env.jwtSecret) (hexp : nowMs / 1000 < tok.exp)
    (hfind : db.find? (fun v => v.id == tok.sub) = some u)
    (hst : u.refreshToken = some tok) :
    refreshOp env nowMs (some tok) db =
      ({ status := 200, message := some "Tokens refreshed",
         accessToken := some (generateTokens env nowMs u.id).1,
         refreshToken := some (generateTokens env nowMs u.id).2 },
       db.map fun v => if v.id = u.id then
         { u with refreshToken := some (generateTokens env nowMs u.id).2 } else v) := by
  simp [refreshOp, verifyJwt_pos hsec hexp, hfind, hst]

theorem logoutOp_cases (env : Env) (nowMs : Nat) (tok? : Option Jwt) (db : DB) :
    (∃ tok u, tok? = some tok ∧
       db.find? (fun v => v.id == tok.sub) = some u ∧
       logoutOp env nowMs tok? db =
         ({ status := 200, message := some "Logged out" },
          db.map fun v => if v.id = u.id then { u with refreshToken := none } else v))
    ∨ ((logoutOp env nowMs tok? db).2 = db ∧
       (logoutOp env nowMs tok? db).1.refreshToken = none ∧
       (logoutOp env nowMs tok? db).1.status = 200) := by
  cases tok? with
  | none =>
    right
    simp [logoutOp]
  | some tok =>
    cases hv : verifyJwt tok env.jwtSecret (nowMs / 1000) with
    | none =>
      right
      simp [logoutOp, hv]
    | some sub =>
      obtain ⟨hsec, hexp, hsub⟩ := verifyJwt_eq_some hv
      subst hsub
      cases hf : db.find? fun v => v.id == tok.sub with
      | none =>
        right
        simp [logoutOp, hv, hf]
      | some u =>
        left
        exact ⟨tok, u, rfl, hf, by simp [logoutOp, hv, hf]⟩

theorem googleOp_cases (env : Env) (nowMs salt : Nat) (newId : String) (rnd : List Nat)
    (check : GoogleCheck) (db : DB) :
    (∃ email u, check = .valid email ∧ db.find? (fun v => v.email == email) = some u ∧
       googleOp env nowMs salt newId rnd check db =
         ({ status := 200, message := some "Signed in with Google",
            accessToken := some (generateTokens env nowMs u.id).1,
            refreshToken := some (generateTokens env nowMs u.id).2 },
          db.map fun v => if v.id = u.id then
            { u with refreshToken := some (generateTokens env nowMs u.id).2 } else v))
    ∨ (∃ email, check = .valid email ∧ db.find? (fun v => v.email == email) = none ∧
       googleOp env nowMs salt newId rnd check db =
         ({ status := 200, message := some "Signed in with Google",
            accessToken := some (generateTokens env nowMs newId).1,
            refreshToken := some (generateTokens env nowMs newId).2 },
          (db ++ [({ id := newId, email := email,
                     password := argonHash (String.mk (hexOfBytes rnd)) salt } : User)]).map
            fun v => if v.id = newId then
              ({ id := newId, email := email,
                 password := argonHash (String.mk (hexOfBytes rnd)) salt,
                 refreshToken := some (generateTokens env nowMs newId).2 } : User) else v))
    ∨ ((googleOp env nowMs salt newId rnd check db).2 = db ∧
       (googleOp env nowMs salt newId rnd check db).1.refreshToken = none ∧
       (googleOp env nowMs salt newId rnd check db).1.status = 400) := by
  cases check with
  | missing =>
    right; right
    simp [googleOp]
  | invalid =>
    right; right
    simp [googleOp]
  | valid email =>
    cases hf : db.find? fun v => v.email == email with
    | none =>
      right; left
      refine ⟨email, rfl, hf, ?_⟩
      simp only [googleOp, hf]
    | some u =>
      left
      exact ⟨email, u, rfl, hf, by simp [googleOp, hf]⟩

theorem forgotPasswordOp_cases (env : Env) (nowMs : Nat) (email? : Option String)
    (tokenHex : String) (db : DB) :
    (∃ email u, email? = some email ∧ db.find? (fun v => v.email == email) = some u ∧
       forgotPasswordOp env nowMs email? tokenHex db =
         ({ status := 200, message := some "If that email is registered, a reset link has been sent." },
          db.map fun v => if v.id = u.id then
            { u with resetPasswordToken := some tokenHex,
                     resetPasswordExpires := some (nowMs + env.resetPasswordExpiresIn * 1000) } else v))
    ∨ ((forgotPasswordOp env nowMs email? tokenHex db).2 = db ∧
       (forgotPasswordOp env nowMs email? tokenHex db).1.refreshToken = none) := by
  cases email? with
  | none =>
    right
    simp [forgotPasswordOp]
  | some email =>
    cases hf : db.find? fun v => v.email == email with
    | none =>
      right
      simp [forgotPasswordOp, hf]
    | some u =>
      left
      exact ⟨email, u, rfl, hf, by simp [forgotPasswordOp, hf]⟩

theorem resetPasswordOp_cases (nowMs salt : Nat) (token? newPw? : Option String) (db : DB) :
    (∃ token newPw u e, token? = some token ∧ newPw? = some newPw ∧
       db.find? (fun v => v.resetPasswordToken == some token) = some u ∧
       u.resetPasswordExpires = some e ∧ ¬ e < nowMs ∧
       resetPasswordOp nowMs salt token? newPw? db =
         ({ status := 200, message := some "Password has been reset" },
          db.map fun v => if v.id = u.id then
            { u with password := argonHash newPw salt,
                     resetPasswordToken := none, resetPasswordExpires := none } else v))
    ∨ ((resetPasswordOp nowMs salt token? newPw? db).2 = db ∧
       (resetPasswordOp nowMs salt token? newPw? db).1.refreshToken = none ∧
       (resetPasswordOp nowMs salt token? newPw? db).1.status = 400) := by
  cases token? with
  | none =>
    right
    cases newPw? <;> simp [resetPasswordOp]
  | some token =>
    cases newPw? with
    | none =>
      right
      simp [resetPasswordOp]
    | some newPw =>
      cases hf : db.find? fun v => v.resetPasswordToken == some token with
      | none =>
        right
        simp [resetPasswordOp, hf]
      | some u =>
        cases he : u.resetPasswordExpires with
        | none =>
          right
          simp [resetPasswordOp, hf, he]
        | some e =>
          by_cases hlt : e < nowMs
          · right
            simp [resetPasswordOp, hf, he, hlt]
          · left
            exact ⟨token, newPw, u, e, rfl, rfl, hf, he, hlt,
              by simp [resetPasswordOp, hf, he, hlt]⟩

/-! ### Master frame lemmas over `runOp` -/

theorem runOp_carries (env : Env) (op : Op) (db : DB) :
    ∀ u' ∈ (runOp env op db).2, carries db (runOp env op db).1 u' := by
  intro u' hu'
  cases op with
  | register nowMs rand salt newId email pw =>
    simp only [runOp] at hu' ⊢
    rcases registerOp_cases nowMs rand salt newId email pw db with ⟨hlen, hf, heq⟩ | ⟨hdb, hrt, _⟩
    · have e1 : (registerOp nowMs rand salt newId email pw db).1.refreshToken = none := by
        rw [heq]
      have e2 : (registerOp nowMs rand salt newId email pw db).2 =
          db ++ [{ id := newId, email := email, password := argonHash pw salt,
                   emailVerificationOtp := some (generateOtp rand),
                   emailVerificationExpires := some (nowMs + 10 * 60 * 1000),
                   isEmailVerified := false }] := by
        rw [heq]
      rw [e2] at hu'
      rcases List.mem_append.1 hu' with h | h
      · exact carries_self db _ e1 u' h
      · rw [List.mem_singleton.1 h]
        exact Or.inl rfl
    · rw [hdb] at hu'
      exact carries_self db _ hrt u' hu'
  | login nowMs email pw =>
    simp only [runOp] at hu' ⊢
    rcases loginOp_cases env nowMs email pw db with ⟨u, hf, _, _, _, heq⟩ | ⟨hdb, hrt, _⟩
    · have e1 : (loginOp env nowMs email pw db).1.refreshToken =
          some (generateTokens env nowMs u.id).2 := by rw [heq]
      have e2 : (loginOp env nowMs email pw db).2 =
          db.map fun v => if v.id = u.id then
            { u with refreshToken := some (generateTokens env nowMs u.id).2 } else v := by
        rw [heq]
      rw [e2] at hu'
      refine carries_issue db db _ _ u.id _ e1 rfl ?_ ?_ (fun v hv => Or.inl hv) u' hu'
      · rfl
      · rfl
    · rw [hdb] at hu'
      exact carries_self db _ hrt u' hu'
  | verifyOtp nowMs email otp =>
    simp only [runOp] at hu' ⊢
    rcases verifyOtpOp_cases nowMs email otp db with ⟨u, stored, e, hf, _, _, _, _, _, heq⟩ | ⟨hdb, hrt, _⟩
    · have e1 : (verifyOtpOp nowMs email otp db).1.refreshToken = none := by rw [heq]
      have e2 : (verifyOtpOp nowMs email otp db).2 =
          db.map fun v => if v.id = u.id then
            { u with isEmailVerified := true, emailVerificationOtp := none,
                     emailVerificationExpires := none } else v := by
        rw [heq]
      rw [e2] at hu'
      refine carries_map_keep db _ e1 u _ (List.mem_of_find?_eq_some hf) ?_ ?_ u' hu'
      · rfl
      · exact Or.inl rfl
    · rw [hdb] at hu'
      exact carries_self db _ hrt u' hu'
  | resendOtp nowMs rand email =>
    simp only [runOp] at hu' ⊢
    rcases resendOtpOp_cases nowMs rand email db with ⟨u, hf, _, heq⟩ | ⟨hdb, hrt, _⟩
    · have e1 : (resendOtpOp nowMs rand email db).1.refreshToken = none := by rw [heq]
      have e2 : (resendOtpOp nowMs rand email db).2 =
          db.map fun v => if v.id = u.id then
            { u with emailVerificationOtp := some (generateOtp rand),
                     emailVerificationExpires := some (nowMs + 10 * 60 * 1000) } else v := by
        rw [heq]
      rw [e2] at hu'
      refine carries_map_keep db _ e1 u _ (List.mem_of_find?_eq_some hf) ?_ ?_ u' hu'
      · rfl
      · exact Or.inl rfl
    · rw [hdb] at hu'
      exact carries_self db _ hrt u' hu'
  | refresh nowMs tok? =>
    simp only [runOp] at hu' ⊢
    rcases refreshOp_cases env nowMs tok? db with ⟨tok, u, _, _, _, hf, _, heq⟩ | ⟨_, hdb, _, hrt⟩
    · have e1 : (refreshOp env nowMs tok? db).1.refreshToken =
          some (generateTokens env nowMs u.id).2 := by rw [heq]
      have e2 : (refreshOp env nowMs tok? db).2 =
          db.map fun v => if v.id = u.id then
            { u with refreshToken := some (generateTokens env nowMs u.id).2 } else v := by
        rw [heq]
      rw [e2] at hu'
      refine carries_issue db db _ _ u.id _ e1 rfl ?_ ?_ (fun v hv => Or.inl hv) u' hu'
      · rfl
      · rfl
    · rw [hdb] at hu'
      exact carries_self db _ hrt u' hu'
  | logout nowMs tok? =>
    simp only [runOp] at hu' ⊢
    rcases logoutOp_cases env nowMs tok? db with ⟨tok, u, _, hf, heq⟩ | ⟨hdb, hrt, _⟩
    · have e1 : (logoutOp env nowMs tok? db).1.refreshToken = none := by rw [heq]
      have e2 : (logoutOp env nowMs tok? db).2 =
          db.map fun v => if v.id = u.id then { u with refreshToken := none } else v := by
        rw [heq]
      rw [e2] at hu'
      refine carries_map_keep db _ e1 u _ (List.mem_of_find?_eq_some hf) ?_ ?_ u' hu'
      · rfl
      · exact Or.inr rfl
    · rw [hdb] at hu'
      exact carries_self db _ hrt u' hu'
  | google nowMs salt newId rnd check =>
    simp only [runOp] at hu' ⊢
    rcases googleOp_cases env nowMs salt newId rnd check db with
      ⟨email, u, _, hf, heq⟩ | ⟨email, _, hf, heq⟩ | ⟨hdb, hrt, _⟩
    · have e1 : (googleOp env nowMs salt newId rnd check db).1.refreshToken =
          some (generateTokens env nowMs u.id).2 := by rw [heq]
      have e2 : (googleOp env nowMs salt newId rnd check db).2 =
          db.map fun v => if v.id = u.id then
            { u with refreshToken := some (generateTokens env nowMs u.id).2 } else v := by
        rw [heq]
      rw [e2] at hu'
      refine carries_issue db db _ _ u.id _ e1 rfl ?_ ?_ (fun v hv => Or.inl hv) u' hu'
      · rfl
      · rfl
    · have e1 : (googleOp env nowMs salt newId rnd check db).1.refreshToken =
          some (generateTokens env nowMs newId).2 := by rw [heq]
      have e2 : (googleOp env nowMs salt newId rnd check db).2 =
          (db ++ [({ id := newId, email := email,
                     password := argonHash (String.mk (hexOfBytes rnd)) salt } : User)]).map
            fun v => if v.id = newId then
              ({ id := newId, email := email,
                 password := argonHash (String.mk (hexOfBytes rnd)) salt,
                 refreshToken := some (generateTokens env nowMs newId).2 } : User) else v := by
        rw [heq]
      rw [e2] at hu'
      refine carries_issue db _ _ _ newId _ e1 rfl ?_ ?_ ?_ u' hu'
      · rfl
      · rfl
      intro v hv
      rcases List.mem_append.1 hv with h | h
      · exact Or.inl h
      · rw [List.mem_singleton.1 h]
        exact Or.inr rfl
    · rw [hdb] at hu'
      exact carries_self db _ hrt u' hu'
  | forgotPassword nowMs email? tokenHex =>
    simp only [runOp] at hu' ⊢
    rcases forgotPasswordOp_cases env nowMs email? tokenHex db with ⟨email, u, _, hf, heq⟩ | ⟨hdb, hrt⟩
    · have e1 : (forgotPasswordOp env nowMs email? tokenHex db).1.refreshToken = none := by rw [heq]
      have e2 : (forgotPasswordOp env nowMs email? tokenHex db).2 =
          db.map fun v => if v.id = u.id then
            { u with resetPasswordToken := some tokenHex,
                     resetPasswordExpires := some (nowMs + env.resetPasswordExpiresIn * 1000) } else v := by
        rw [heq]
      rw [e2] at hu'
      refine carries_map_keep db _ e1 u _ (List.mem_of_find?_eq_some hf) ?_ ?_ u' hu'
      · rfl
      · exact Or.inl rfl
    · rw [hdb] at hu'
      exact carries_self db _ hrt u' hu'
  | resetPassword nowMs salt token? newPw? =>
    simp only [runOp] at hu' ⊢
    rcases resetPasswordOp_cases nowMs salt token? newPw? db with
      ⟨token, newPw, u, e, _, _, hf, _, _, heq⟩ | ⟨hdb, hrt, _⟩
    · have e1 : (resetPasswordOp nowMs salt token? newPw? db).1.refreshToken = none := by rw [heq]
      have e2 : (resetPasswordOp nowMs salt token? newPw? db).2 =
          db.map fun v => if v.id = u.id then
            { u with password := argonHash newPw salt,
                     resetPasswordToken := none, resetPasswordExpires := none } else v := by
        rw [heq]
      rw [e2] at hu'
      refine carries_map_keep db _ e1 u _ (List.mem_of_find?_eq_some hf) ?_ ?_ u' hu'
      · rfl
      · exact Or.inl rfl
    · rw [hdb] at hu'
      exact carries_self db _ hrt u' hu'

theorem runOp_issued (env : Env) (op : Op) (db : DB) (rt : Jwt)
    (h : (runOp env op db).1.refreshToken = some rt) :
    rt.secret = env.jwtSecret ∧ rt.exp = op.now / 1000 + env.refreshTokenExpiresIn := by
  cases op with
  | register nowMs rand salt newId email pw =>
    simp only [runOp] at h
    rcases registerOp_cases nowMs rand salt newId email pw db with ⟨_, _, heq⟩ | ⟨_, hrt, _⟩
    · rw [heq] at h
      cases h
    · rw [hrt] at h
      cases h
  | login nowMs email pw =>
    simp only [runOp] at h
    rcases loginOp_cases env nowMs email pw db with ⟨u, _, _, _, _, heq⟩ | ⟨_, hrt, _⟩
    · rw [heq] at h
      cases h
      exact ⟨rfl, rfl⟩
    · rw [hrt] at h
      cases h
  | verifyOtp nowMs email otp =>
    simp only [runOp] at h
    rcases verifyOtpOp_cases nowMs email otp db with ⟨u, stored, e, _, _, _, _, _, _, heq⟩ | ⟨_, hrt, _⟩
    · rw [heq] at h
      cases h
    · rw [hrt] at h
      cases h
  | resendOtp nowMs rand email =>
    simp only [runOp] at h
    rcases resendOtpOp_cases nowMs rand email db with ⟨u, _, _, heq⟩ | ⟨_, hrt, _⟩
    · rw [heq] at h
      cases h
    · rw [hrt] at h
      cases h
  | refresh nowMs tok? =>
    simp only [runOp] at h
    rcases refreshOp_cases env nowMs tok? db with ⟨tok, u, _, _, _, _, _, heq⟩ | ⟨_, _, _, hrt⟩
    · rw [heq] at h
      cases h
      exact ⟨rfl, rfl⟩
    · rw [hrt] at h
      cases h
  | logout nowMs tok? =>
    simp only [runOp] at h
    rcases logoutOp_cases env nowMs tok? db with ⟨tok, u, _, _, heq⟩ | ⟨_, hrt, _⟩
    · rw [heq] at h
      cases h
    · rw [hrt] at h
      cases h
  | google nowMs salt newId rnd check =>
    simp only [runOp] at h
    rcases googleOp_cases env nowMs salt newId rnd check db with
      ⟨email, u, _, _, heq⟩ | ⟨email, _, _, heq⟩ | ⟨_, hrt, _⟩
    · rw [heq] at h
      cases h
      exact ⟨rfl, rfl⟩
    · rw [heq] at h
      cases h
      exact ⟨rfl, rfl⟩
    · rw [hrt] at h
      cases h
  | forgotPassword nowMs email? tokenHex =>
    simp only [runOp] at h
    rcases forgotPasswordOp_cases env nowMs email? tokenHex db with ⟨email, u, _, _, heq⟩ | ⟨_, hrt⟩
    · rw [heq] at h
      cases h
    · rw [hrt] at h
      cases h
  | resetPassword nowMs salt token? newPw? =>
    simp only [runOp] at h
    rcases resetPasswordOp_cases nowMs salt token? newPw? db with
      ⟨token, newPw, u, e, _, _, _, _, _, heq⟩ | ⟨_, hrt, _⟩
    · rw [heq] at h
      cases h
    · rw [hrt] at h
      cases h

/-! ### Invariant preservation -/

theorem sessionInv_preserved (env : Env) (db : DB) (g : Ghost) (op : Op)
    (hinv : SessionInv db g) :
    SessionInv (runOp env op db).2 (updateGhost g (runOp env op db).1) := by
  intro u' hu' t ht
  rcases runOp_carries env op db u' hu' with hnone | ⟨⟨u, hu, hid, hrt⟩, hnot⟩ | ⟨rt, hresp, hurt, hsub⟩
  · rw [hnone] at ht
    cases ht
  · have hg : g u'.id = some t := by
      have := hinv u hu t (hrt.trans ht)
      rwa [hid] at this
    unfold updateGhost
    cases hr : (runOp env op db).1.refreshToken with
    | none => exact hg
    | some rt =>
      have hne := hnot rt hr
      simp only [if_neg hne]
      exact hg
  · have htrt : t = rt := by
      rw [hurt] at ht
      cases ht
      rfl
    subst htrt
    unfold updateGhost
    rw [hresp]
    simp [hsub]

theorem oldGone_preserved (env : Env) (tok : Jwt) (db db' : DB)
    (hstep : GoodStep env tok db db') (hog : OldGone tok db) : OldGone tok db' := by
  rcases hstep with ⟨op, rfl, hne⟩
  intro u' hu'
  rcases runOp_carries env op db u' hu' with hnone | ⟨⟨u, hu, hid, hrt⟩, _⟩ | ⟨rt, hresp, hurt, _⟩
  · rw [hnone]
    intro h
    cases h
  · rw [← hrt]
    exact hog u hu
  · rw [hurt]
    intro h
    cases h
    exact hne ((runOp_issued env op db tok hresp).2.symm)

theorem refreshOp_oldGone (env : Env) (nowMs : Nat) (tok : Jwt) (db : DB) (hog : OldGone tok db) :
    (refreshOp env nowMs (some tok) db).1.status = 401 ∧
    (refreshOp env nowMs (some tok) db).2 = db ∧
    (refreshOp env nowMs (some tok) db).1.accessToken = none ∧
    (refreshOp env nowMs (some tok) db).1.refreshToken = none := by
  rcases refreshOp_cases env nowMs (some tok) db with ⟨tok', u, heq, _, _, hf, hst, _⟩ | hfail
  · cases heq
    exact absurd hst (hog u (List.mem_of_find?_eq_some hf))
  · exact hfail

theorem refreshOp_rotation_oldGone (env : Env) (t1 : Nat) (tok : Jwt) (db : DB)
    (hsucc : (refreshOp env t1 (some tok) db).1.status = 200)
    (hfresh : t1 / 1000 + env.refreshTokenExpiresIn ≠ tok.exp)
    (hpre : ∀ u ∈ db, u.refreshToken = some tok → u.id = tok.sub) :
    OldGone tok (refreshOp env t1 (some tok) db).2 := by
  rcases refreshOp_cases env t1 (some tok) db with
    ⟨tok', u, heq, hsec, hexp, hf, hst, heq2⟩ | ⟨h401, _, _, _⟩
  · cases heq
    have hbeq := List.find?_some hf
    have huid : u.id = tok.sub := by simpa using hbeq
    have e2 : (refreshOp env t1 (some tok) db).2 =
        db.map fun v => if v.id = u.id then
          { u with refreshToken := some (generateTokens env t1 u.id).2 } else v := by
      rw [heq2]
    rw [e2]
    intro u' hu'
    rcases List.mem_map.1 hu' with ⟨v, hv, rfl⟩
    by_cases h : v.id = u.id
    · rw [if_pos h]
      intro hcontra
      have hrt : (generateTokens env t1 u.id).2 = tok := by
        simpa using hcontra
      exact hfresh (congrArg Jwt.exp hrt)
    · rw [if_neg h]
      intro hvtok
      exact h ((hpre v hv hvtok).trans huid.symm)
  · rw [h401] at hsucc
    cases hsucc

theorem sessionInv_reachable (env : Env) (s : DB × Ghost) (h : GReachable env s) :
    SessionInv s.1 s.2 := by
  induction h with
  | refl =>
    intro u hu t ht
    cases hu
  | tail hab hbc ih =>
    rcases hbc with ⟨op, rfl⟩
    exact sessionInv_preserved env _ _ op ih

/-! ### Claims -/

/-- C1.  A refresh request succeeds exactly when the presented token
verifies under the JWT secret (matching secret, unexpired) and equals
the `refreshToken` stored on the account its `sub` claim names; on
success a fresh access/refresh pair is generated and the new refresh
token replaces the stored one; on any failure (missing token, failed
verification, unknown account, or mismatch) the response is a 401 and
the store is unchanged, with no tokens issued. -/
theorem c1_refresh_rotation (env : Env) (nowMs : Nat) (tok? : Option Jwt) (db : DB) :
    ((refreshOp env nowMs tok? db).1.status = 200 ↔
      ∃ tok u, tok? = some tok ∧ tok.secret = env.jwtSecret ∧ nowMs / 1000 < tok.exp ∧
        db.find? (fun v => v.id == tok.sub) = some u ∧ u.refreshToken = some tok) ∧
    (∀ tok u, tok? = some tok → tok.secret = env.jwtSecret → nowMs / 1000 < tok.exp →
      db.find? (fun v => v.id == tok.sub) = some u → u.refreshToken = some tok →
      refreshOp env nowMs tok? db =
        ({ status := 200, message := some "Tokens refreshed",
           accessToken := some (generateTokens env nowMs u.id).1,
           refreshToken := some (generateTokens env nowMs u.id).2 },
         db.map fun v => if v.id = u.id then
           { u with refreshToken := some (generateTokens env nowMs u.id).2 } else v)) ∧
    ((refreshOp env nowMs tok? db).1.status ≠ 200 →
      (refreshOp env nowMs tok? db).1.status = 401 ∧
      (refreshOp env nowMs tok? db).2 = db ∧
      (refreshOp env nowMs tok? db).1.accessToken = none ∧
      (refreshOp env nowMs tok? db).1.refreshToken = none) := by
  refine ⟨⟨?_, ?_⟩, ?_, ?_⟩
  · intro hs
    rcases refreshOp_cases env nowMs tok? db with
      ⟨tok, u, htok, hsec, hexp, hf, hst, _⟩ | ⟨h401, _, _, _⟩
    · exact ⟨tok, u, htok, hsec, hexp, hf, hst⟩
    · rw [h401] at hs
      cases hs
  · rintro ⟨tok, u, rfl, hsec, hexp, hf, hst⟩
    rw [refreshOp_success_eq env nowMs tok u db hsec hexp hf hst]
  · rintro tok u rfl hsec hexp hf hst
    exact refreshOp_success_eq env nowMs tok u db hsec hexp hf hst
  · intro hne
    rcases refreshOp_cases env nowMs tok? db with
      ⟨tok, u, _, _, _, _, _, heq⟩ | hfail
    · exact absurd (by rw [heq]) hne
    · exact hfail

/-- Closed instance of `c1_refresh_rotation`: a successful rotation on
the concrete store `dbEx`, with every hypothesis discharged. -/
theorem c1_refresh_rotation_witness :
    refreshOp envEx 1000 (some tokEx) dbEx =
      ({ status := 200, message := some "Tokens refreshed",
         accessToken := some (generateTokens envEx 1000 userEx.id).1,
         refreshToken := some (generateTokens envEx 1000 userEx.id).2 },
       dbEx.map fun v => if v.id = userEx.id then
         { userEx with refreshToken := some (generateTokens envEx 1000 userEx.id).2 } else v) :=
  (c1_refresh_rotation envEx 1000 (some tokEx) dbEx).2.1 tokEx userEx rfl (by decide)
    (by decide) (by decide) (by decide)

/-- C2 as stated is false: JWT signing is deterministic and `exp` has
second granularity, so a rotation performed in the same second as the
old token's issuance re-issues the identical token; the pre-rotation
token then still matches the stored one, and presenting it again
succeeds (status 200, tokens issued) instead of failing. -/
theorem c2_reuse_counterexample :
    (refreshOp envEx 0 (some tokEx) dbEx).1.status = 200 ∧
    (refreshOp envEx 0 (some tokEx) dbEx).2 = dbEx ∧
    (refreshOp envEx 0 (some tokEx) (refreshOp envEx 0 (some tokEx) dbEx).2).1.status = 200 ∧
    (refreshOp envEx 0 (some tokEx) (refreshOp envEx 0 (some tokEx) dbEx).2).1.refreshToken =
      some tokEx := by
  decide

/-- C2 amended.  After a successful rotation that presents `tok` at a
time whose issuance second differs from `tok`'s (so the newly issued
token differs from `tok`), and along any further sequence of endpoint
calls none of which re-issues a refresh token with `tok`'s exact expiry
second, every refresh presenting the retired token `tok` returns 401,
changes nothing, and issues no tokens. -/
theorem c2_reuse_after_rotation_fails (env : Env) (t1 : Nat) (tok : Jwt) (spre s : DB)
    (hsucc : (refreshOp env t1 (some tok) spre).1.status = 200)
    (hfresh : t1 / 1000 + env.refreshTokenExpiresIn ≠ tok.exp)
    (hpre : ∀ u ∈ spre, u.refreshToken = some tok → u.id = tok.sub)
    (hreach : Relation.ReflTransGen (GoodStep env tok) (refreshOp env t1 (some tok) spre).2 s) :
    ∀ t2 : Nat, (refreshOp env t2 (some tok) s).1.status = 401 ∧
      (refreshOp env t2 (some tok) s).2 = s ∧
      (refreshOp env t2 (some tok) s).1.accessToken = none ∧
      (refreshOp env t2 (some tok) s).1.refreshToken = none := by
  have hog0 := refreshOp_rotation_oldGone env t1 tok spre hsucc hfresh hpre
  have hog : OldGone tok s := by
    induction hreach with
    | refl => exact hog0
    | tail hab hbc ih => exact oldGone_preserved env tok _ _ hbc ih
  intro t2
  exact refreshOp_oldGone env t2 tok s hog

/-- Closed instance of `c2_reuse_after_rotation_fails`: rotation at
second 1 retires `tokEx` (issued at second 0); replaying it at second 2
is rejected with 401 and no state change. -/
theorem c2_reuse_after_rotation_fails_witness :
    (refreshOp envEx 2000 (some tokEx) (refreshOp envEx 1000 (some tokEx) dbEx).2).1.status = 401 ∧
    (refreshOp envEx 2000 (some tokEx) (refreshOp envEx 1000 (some tokEx) dbEx).2).2 =
      (refreshOp envEx 1000 (some tokEx) dbEx).2 ∧
    (refreshOp envEx 2000 (some tokEx) (refreshOp envEx 1000 (some tokEx) dbEx).2).1.accessToken =
      none ∧
    (refreshOp envEx 2000 (some tokEx) (refreshOp envEx 1000 (some tokEx) dbEx).2).1.refreshToken =
      none :=
  c2_reuse_after_rotation_fails envEx 1000 tokEx dbEx _ (by decide) (by decide) (by decide)
    Relation.ReflTransGen.refl 2000

/-- C3.  In every state reachable from the empty store by endpoint
calls, an account's stored `refreshToken`, when present, is exactly the
refresh token most recently issued for that account (tracked by the
ghost issuance map `updateGhost` maintains): login, refresh, and Google
sign-in persist the token they issue in the same step, and logout only
clears. -/
theorem c3_stored_token_is_last_issued (env : Env) (db : DB) (g : Ghost)
    (h : GReachable env (db, g)) : SessionInv db g :=
  sessionInv_reachable env (db, g) h

/-- Closed instance of `c3_stored_token_is_last_issued`: the state after
a Google sign-in that provisions an account and issues its first
token pair. -/
theorem c3_stored_token_is_last_issued_witness :
    SessionInv (runOp envEx opGoogleEx []).2
      (updateGhost (fun _ => none) (runOp envEx opGoogleEx []).1) :=
  c3_stored_token_is_last_issued envEx _ _
    (Relation.ReflTransGen.refl.tail ⟨opGoogleEx, rfl⟩)

/-- C4.  Single-use-with-expiry semantics.  (1) A verify-otp request
whose account stores an OTP equal to the submitted code with an expiry
not in the past marks the account verified and clears the OTP and its
expiry; (2) on the resulting state, any further verify-otp request for
that email is rejected with 400 and changes nothing; (3) a verify-otp
request whose stored expiry is past is rejected with 400 and changes
nothing; (4) a reset-password request with a matching, unexpired token
re-hashes the password and clears the token and expiry; (5) on the
resulting state, any further reset with the same token (stored only on
that account) is rejected with 400 and changes nothing; (6) a reset
whose stored expiry is past is rejected with 400 and changes nothing. -/
theorem c4_single_use_otp_and_reset :
    (∀ (nowMs : Nat) (email otp : String) (db : DB) (u : User) (stored : String) (e : Nat),
      ¬ otp.length < 6 →
      db.find? (fun v => v.email == email) = some u →
      u.emailVerificationOtp = some stored →
      u.emailVerificationExpires = some e →
      stored = otp → ¬ e < nowMs →
      verifyOtpOp nowMs email otp db =
        ({ status := 200, message := some "Email verified successfully" },
         db.map fun v => if v.id = u.id then
           { u with isEmailVerified := true, emailVerificationOtp := none,
                    emailVerificationExpires := none } else v)) ∧
    (∀ (email : String) (db : DB) (u : User),
      db.find? (fun v => v.email == email) = some u →
      ∀ (now2 : Nat) (otp2 : String),
      (verifyOtpOp now2 email otp2
          (db.map fun v => if v.id = u.id then
            { u with isEmailVerified := true, emailVerificationOtp := none,
                     emailVerificationExpires := none } else v)).1.status = 400 ∧
      (verifyOtpOp now2 email otp2
          (db.map fun v => if v.id = u.id then
            { u with isEmailVerified := true, emailVerificationOtp := none,
                     emailVerificationExpires := none } else v)).2 =
        db.map fun v => if v.id = u.id then
          { u with isEmailVerified := true, emailVerificationOtp := none,
                   emailVerificationExpires := none } else v) ∧
    (∀ (nowMs : Nat) (email otp : String) (db : DB) (u : User) (stored : String) (e : Nat),
      ¬ otp.length < 6 →
      db.find? (fun v => v.email == email) = some u →
      u.emailVerificationOtp = some stored →
      u.emailVerificationExpires = some e →
      e < nowMs →
      (verifyOtpOp nowMs email otp db).1.status = 400 ∧
      (verifyOtpOp nowMs email otp db).2 = db) ∧
    (∀ (nowMs salt : Nat) (token newPw : String) (db : DB) (u : User) (e : Nat),
      db.find? (fun v => v.resetPasswordToken == some token) = some u →
      u.resetPasswordExpires = some e → ¬ e < nowMs →
      resetPasswordOp nowMs salt (some token) (some newPw) db =
        ({ status := 200, message := some "Password has been reset" },
         db.map fun v => if v.id = u.id then
           { u with password := argonHash newPw salt,
                    resetPasswordToken := none, resetPasswordExpires := none } else v)) ∧
    (∀ (salt now2 salt2 : Nat) (token newPw newPw2 : String) (db : DB) (u : User),
      (∀ v ∈ db, v.resetPasswordToken = some token → v.id = u.id) →
      (resetPasswordOp now2 salt2 (some token) (some newPw2)
          (db.map fun v => if v.id = u.id then
            { u with password := argonHash newPw salt,
                     resetPasswordToken := none, resetPasswordExpires := none } else v)).1.status = 400 ∧
      (resetPasswordOp now2 salt2 (some token) (some newPw2)
          (db.map fun v => if v.id = u.id then
            { u with password := argonHash newPw salt,
                     resetPasswordToken := none, resetPasswordExpires := none } else v)).2 =
        db.map fun v => if v.id = u.id then
          { u with password := argonHash newPw salt,
                   resetPasswordToken := none, resetPasswordExpires := none } else v) ∧
    (∀ (nowMs salt : Nat) (token newPw : String) (db : DB) (u : User) (e : Nat),
      db.find? (fun v => v.resetPasswordToken == some token) = some u →
      u.resetPasswordExpires = some e → e < nowMs →
      (resetPasswordOp nowMs salt (some token) (some newPw) db).1.status = 400 ∧
      (resetPasswordOp nowMs salt (some token) (some newPw) db).2 = db) := by
  refine ⟨?_, ?_, ?_, ?_, ?_, ?_⟩
  · intro nowMs email otp db u stored e hlen hf ho he heq hnl
    simp [verifyOtpOp, hlen, hf, ho, he, heq, hnl]
  · intro email db u hf now2 otp2
    have hpu := List.find?_some hf
    have hfp := find?_map_keyed db (fun v => v.email == email) u
      { u with isEmailVerified := true, emailVerificationOtp := none,
               emailVerificationExpires := none } hf hpu
    by_cases hlen2 : otp2.length < 6
    · constructor <;> simp [verifyOtpOp, hlen2]
    · constructor <;> simp [verifyOtpOp, hlen2, hfp]
  · intro nowMs email otp db u stored e hlen hf ho he hlt
    have hc : ¬ (stored = otp ∧ ¬ e < nowMs) := fun hand => hand.2 hlt
    simp only [Nat.not_lt] at hc
    constructor <;> simp [verifyOtpOp, hlen, hf, ho, he, hc]
  · intro nowMs salt token newPw db u e hf he hnl
    simp [resetPasswordOp, hf, he, hnl]
  · intro salt now2 salt2 token newPw newPw2 db u honly
    have hnone := find?_map_keyed_none db u.id
      (fun v => v.resetPasswordToken == some token)
      { u with password := argonHash newPw salt,
               resetPasswordToken := none, resetPasswordExpires := none }
      (fun v hv hbv => honly v hv (eq_of_beq hbv)) (by simp)
    constructor <;> simp [resetPasswordOp, hnone]
  · intro nowMs salt token newPw db u e hf he hlt
    constructor <;> simp [resetPasswordOp, hf, he, hlt]

/-- Closed instance of `c4_single_use_otp_and_reset`: all six parts
evaluated on concrete accounts (`userOtp`, `userReset`) — a successful
verification, the rejected second use, the rejected expired use, and
the same three for password reset. -/
theorem c4_single_use_otp_and_reset_witness :
    (verifyOtpOp 0 "b@b.c" "100000" [userOtp] =
      ({ status := 200, message := some "Email verified successfully" },
       [userOtp].map fun v => if v.id = userOtp.id then
         { userOtp with isEmailVerified := true, emailVerificationOtp := none,
                        emailVerificationExpires := none } else v)) ∧
    ((verifyOtpOp 5 "b@b.c" "100000"
        ([userOtp].map fun v => if v.id = userOtp.id then
          { userOtp with isEmailVerified := true, emailVerificationOtp := none,
                         emailVerificationExpires := none } else v)).1.status = 400 ∧
     (verifyOtpOp 5 "b@b.c" "100000"
        ([userOtp].map fun v => if v.id = userOtp.id then
          { userOtp with isEmailVerified := true, emailVerificationOtp := none,
                         emailVerificationExpires := none } else v)).2 =
       [userOtp].map fun v => if v.id = userOtp.id then
         { userOtp with isEmailVerified := true, emailVerificationOtp := none,
                        emailVerificationExpires := none } else v) ∧
    ((verifyOtpOp 700000 "b@b.c" "100000" [userOtp]).1.status = 400 ∧
     (verifyOtpOp 700000 "b@b.c" "100000" [userOtp]).2 = [userOtp]) ∧
    (resetPasswordOp 0 7 (some "rtok1") (some "newpass") [userReset] =
      ({ status := 200, message := some "Password has been reset" },
       [userReset].map fun v => if v.id = userReset.id then
         { userReset with password := argonHash "newpass" 7,
                          resetPasswordToken := none, resetPasswordExpires := none } else v)) ∧
    ((resetPasswordOp 5 9 (some "rtok1") (some "other")
        ([userReset].map fun v => if v.id = userReset.id then
          { userReset with password := argonHash "newpass" 7,
                           resetPasswordToken := none, resetPasswordExpires := none } else v)).1.status = 400 ∧
     (resetPasswordOp 5 9 (some "rtok1") (some "other")
        ([userReset].map fun v => if v.id = userReset.id then
          { userReset with password := argonHash "newpass" 7,
                           resetPasswordToken := none, resetPasswordExpires := none } else v)).2 =
       [userReset].map fun v => if v.id = userReset.id then
         { userReset with password := argonHash "newpass" 7,
                          resetPasswordToken := none, resetPasswordExpires := none } else v) ∧
    ((resetPasswordOp 700000 7 (some "rtok1") (some "newpass") [userReset]).1.status = 400 ∧
     (resetPasswordOp 700000 7 (some "rtok1") (some "newpass") [userReset]).2 = [userReset]) :=
  ⟨c4_single_use_otp_and_reset.1 0 "b@b.c" "100000" [userOtp] userOtp "100000" 600000
     (by decide) (by decide) rfl rfl rfl (by decide),
   c4_single_use_otp_and_reset.2.1 "b@b.c" [userOtp] userOtp (by decide) 5 "100000",
   c4_single_use_otp_and_reset.2.2.1 700000 "b@b.c" "100000" [userOtp] userOtp "100000" 600000
     (by decide) (by decide) rfl rfl (by decide),
   c4_single_use_otp_and_reset.2.2.2.1 0 7 "rtok1" "newpass" [userReset] userReset 600000
     (by decide) rfl (by decide),
   c4_single_use_otp_and_reset.2.2.2.2.1 7 5 9 "rtok1" "newpass" "other" [userReset] userReset
     (by decide),
   c4_single_use_otp_and_reset.2.2.2.2.2 700000 7 "rtok1" "newpass" [userReset] userReset 600000
     (by decide) rfl (by decide)⟩

/-- C5 as stated is false: a successful OTP verification changes three
stored fields of the account (`isEmailVerified`, `emailVerificationOtp`,
`emailVerificationExpires`), not exactly one. -/
theorem c5_one_field_counterexample :
    (verifyOtpOp 0 "b@b.c" "100000" [userOtp]).1.status = 200 ∧
    (verifyOtpOp 0 "b@b.c" "100000" [userOtp]).2 = [userOtpAfter] ∧
    diffFields userOtp userOtpAfter = 3 ∧ ¬ diffFields userOtp userOtpAfter = 1 := by
  decide

/-- C5 amended.  The precise frame effects of the five operations: a
successful verify-otp rewrites exactly the three verification fields of
the found account; successful login, refresh, and logout rewrite only
its `refreshToken`; successful register appends a fresh record and
leaves every existing record unchanged. -/
theorem c5_frame_effects :
    (∀ (nowMs : Nat) (email otp : String) (db : DB) (u : User) (stored : String) (e : Nat),
      ¬ otp.length < 6 →
      db.find? (fun v => v.email == email) = some u →
      u.emailVerificationOtp = some stored →
      u.emailVerificationExpires = some e →
      stored = otp → ¬ e < nowMs →
      (verifyOtpOp nowMs email otp db).2 =
        db.map fun v => if v.id = u.id then
          { u with isEmailVerified := true, emailVerificationOtp := none,
                   emailVerificationExpires := none } else v) ∧
    (∀ (env : Env) (nowMs : Nat) (email pw : String) (db : DB) (u : User),
      ¬ pw.length = 0 →
      db.find? (fun v => v.email == email) = some u →
      argonVerify u.password pw = true → u.isEmailVerified = true →
      (loginOp env nowMs email pw db).2 =
        db.map fun v => if v.id = u.id then
          { u with refreshToken := some (generateTokens env nowMs u.id).2 } else v) ∧
    (∀ (env : Env) (nowMs : Nat) (tok : Jwt) (db : DB) (u : User),
      tok.secret = env.jwtSecret → nowMs / 1000 < tok.exp →
      db.find? (fun v => v.id == tok.sub) = some u →
      u.refreshToken = some tok →
      (refreshOp env nowMs (some tok) db).2 =
        db.map fun v => if v.id = u.id then
          { u with refreshToken := some (generateTokens env nowMs u.id).2 } else v) ∧
    (∀ (env : Env) (nowMs : Nat) (tok : Jwt) (db : DB) (u : User),
      tok.secret = env.jwtSecret → nowMs / 1000 < tok.exp →
      db.find? (fun v => v.id == tok.sub) = some u →
      (logoutOp env nowMs (some tok) db).2 =
        db.map fun v => if v.id = u.id then { u with refreshToken := none } else v) ∧
    (∀ (nowMs rand salt : Nat) (newId email pw : String) (db : DB),
      ¬ pw.length < 6 →
      db.find? (fun v => v.email == email) = none →
      (registerOp nowMs rand salt newId email pw db).2 =
        db ++ [{ id := newId, email := email, password := argonHash pw salt,
                 emailVerificationOtp := some (generateOtp rand),
                 emailVerificationExpires := some (nowMs + 10 * 60 * 1000),
                 isEmailVerified := false }]) := by
  refine ⟨?_, ?_, ?_, ?_, ?_⟩
  · intro nowMs email otp db u stored e hlen hf ho he heq hnl
    simp [verifyOtpOp, hlen, hf, ho, he, heq, hnl]
  · intro env nowMs email pw db u hlen hf hpw hver
    simp [loginOp, hlen, hf, hpw, hver]
  · intro env nowMs tok db u hsec hexp hf hst
    rw [refreshOp_success_eq env nowMs tok u db hsec hexp hf hst]
  · intro env nowMs tok db u hsec hexp hf
    simp [logoutOp, verifyJwt_pos hsec hexp, hf]
  · intro nowMs rand salt newId email pw db hlen hf
    simp [registerOp, hlen, hf]

/-- Closed instance of `c5_frame_effects`: the five frame effects
evaluated on concrete stores, with every hypothesis discharged. -/
theorem c5_frame_effects_witness :
    ((verifyOtpOp 0 "b@b.c" "100000" [userOtp]).2 =
      [userOtp].map fun v => if v.id = userOtp.id then
        { userOtp with isEmailVerified := true, emailVerificationOtp := none,
                       emailVerificationExpires := none } else v) ∧
    ((loginOp envEx 0 "a@b.c" "secret1" dbEx).2 =
      dbEx.map fun v => if v.id = userEx.id then
        { userEx with refreshToken := some (generateTokens envEx 0 userEx.id).2 } else v) ∧
    ((refreshOp envEx 1000 (some tokEx) dbEx).2 =
      dbEx.map fun v => if v.id = userEx.id then
        { userEx with refreshToken := some (generateTokens envEx 1000 userEx.id).2 } else v) ∧
    ((logoutOp envEx 0 (some tokEx) dbEx).2 =
      dbEx.map fun v => if v.id = userEx.id then { userEx with refreshToken := none } else v) ∧
    ((registerOp 0 0 0 "u9" "new@b.c" "secret9" dbEx).2 =
      dbEx ++ [{ id := "u9", email := "new@b.c", password := argonHash "secret9" 0,
                 emailVerificationOtp := some (generateOtp 0),
                 emailVerificationExpires := some (0 + 10 * 60 * 1000),
                 isEmailVerified := false }]) :=
  ⟨c5_frame_effects.1 0 "b@b.c" "100000" [userOtp] userOtp "100000" 600000
     (by decide) (by decide) rfl rfl rfl (by decide),
   c5_frame_effects.2.1 envEx 0 "a@b.c" "secret1" dbEx userEx (by decide) (by decide)
     (by decide) (by decide),
   c5_frame_effects.2.2.1 envEx 1000 tokEx dbEx userEx (by decide) (by decide)
     (by decide) (by decide),
   c5_frame_effects.2.2.2.1 envEx 0 tokEx dbEx userEx (by decide) (by decide) (by decide),
   c5_frame_effects.2.2.2.2 0 0 0 "u9" "new@b.c" "secret9" dbEx (by decide) (by decide)⟩

/-- C6.  Forgot-password is enumeration-safe: for a request naming a
registered email and one naming an unregistered email, the responses
(status and entire body) are identical — a 200 carrying the same
neutral message. -/
theorem c6_forgot_password_enumeration_safe (env : Env) (nowMs : Nat) (db : DB)
    (e1 e2 : String) (tk1 tk2 : String) (u : User)
    (hfound : db.find? (fun v => v.email == e1) = some u)
    (hnot : db.find? (fun v => v.email == e2) = none) :
    (forgotPasswordOp env nowMs (some e1) tk1 db).1 =
      (forgotPasswordOp env nowMs (some e2) tk2 db).1 ∧
    (forgotPasswordOp env nowMs (some e1) tk1 db).1.status = 200 ∧
    (forgotPasswordOp env nowMs (some e1) tk1 db).1.message =
      some "If that email is registered, a reset link has been sent." := by
  refine ⟨?_, ?_, ?_⟩ <;> simp [forgotPasswordOp, hfound, hnot]

/-- Closed instance of `c6_forgot_password_enumeration_safe` on the
concrete store `dbEx`. -/
theorem c6_forgot_password_enumeration_safe_witness :
    (forgotPasswordOp envEx 0 (some "a@b.c") "t1" dbEx).1 =
      (forgotPasswordOp envEx 0 (some "x@y.z") "t2" dbEx).1 ∧
    (forgotPasswordOp envEx 0 (some "a@b.c") "t1" dbEx).1.status = 200 ∧
    (forgotPasswordOp envEx 0 (some "a@b.c") "t1" dbEx).1.message =
      some "If that email is registered, a reset link has been sent." :=
  c6_forgot_password_enumeration_safe envEx 0 dbEx "a@b.c" "x@y.z" "t1" "t2" userEx
    (by decide) (by decide)

/-- C7 as stated is false: a login with an unknown email, or with a
known email and a wrong password, returns status 400 (`Invalid
credentials`), not 401. -/
theorem c7_login_status_counterexample :
    (loginOp envEx 0 "nobody@x.y" "password" dbEx).1.status = 400 ∧
    ¬ (loginOp envEx 0 "nobody@x.y" "password" dbEx).1.status = 401 ∧
    (loginOp envEx 0 "a@b.c" "wrongpass" dbEx).1.status = 400 ∧
    ¬ (loginOp envEx 0 "a@b.c" "wrongpass" dbEx).1.status = 401 := by
  decide

/-- C7 amended.  The middleware answers 401 on a missing/invalid bearer
token or an unknown account, and every failing refresh answers 401; but
login credential failures (unknown email or wrong password) answer 400
with `Invalid credentials`, not 401. -/
theorem c7_auth_failure_statuses :
    (∀ (env : Env) (nowMs : Nat) (db : DB),
      authenticateOp env nowMs .missing db = .error (401, "Authorization header required")) ∧
    (∀ (env : Env) (nowMs : Nat) (tok : Jwt) (db : DB),
      verifyJwt tok env.jwtSecret (nowMs / 1000) = none →
      authenticateOp env nowMs (.bearer tok) db = .error (401, "Invalid token")) ∧
    (∀ (env : Env) (nowMs : Nat) (tok : Jwt) (db : DB) (sub : String),
      verifyJwt tok env.jwtSecret (nowMs / 1000) = some sub →
      db.find? (fun v => v.id == sub) = none →
      authenticateOp env nowMs (.bearer tok) db = .error (401, "User not found")) ∧
    (∀ (env : Env) (nowMs : Nat) (tok? : Option Jwt) (db : DB),
      (refreshOp env nowMs tok? db).1.status ≠ 200 →
      (refreshOp env nowMs tok? db).1.status = 401) ∧
    (∀ (env : Env) (nowMs : Nat) (email pw : String) (db : DB),
      ¬ pw.length = 0 →
      db.find? (fun v => v.email == email) = none →
      loginOp env nowMs email pw db =
        ({ status := 400, error := some "Invalid credentials" }, db)) ∧
    (∀ (env : Env) (nowMs : Nat) (email pw : String) (db : DB) (u : User),
      ¬ pw.length = 0 →
      db.find? (fun v => v.email == email) = some u →
      argonVerify u.password pw = false →
      loginOp env nowMs email pw db =
        ({ status := 400, error := some "Invalid credentials" }, db)) := by
  refine ⟨?_, ?_, ?_, ?_, ?_, ?_⟩
  · intro env nowMs db
    rfl
  · intro env nowMs tok db hv
    simp [authenticateOp, hv]
  · intro env nowMs tok db sub hv hf
    simp [authenticateOp, hv, hf]
  · intro env nowMs tok? db hne
    rcases refreshOp_cases env nowMs tok? db with ⟨tok, u, _, _, _, _, _, heq⟩ | ⟨h401, _, _, _⟩
    · exact absurd (by rw [heq]) hne
    · exact h401
  · intro env nowMs email pw db hlen hf
    simp [loginOp, hlen, hf]
  · intro env nowMs email pw db u hlen hf hpw
    simp [loginOp, hlen, hf, hpw]

/-- Closed instance of `c7_auth_failure_statuses`: each branch evaluated
on concrete inputs — missing header, wrong-secret token, token naming an
unknown account, missing refresh token, unknown login email, wrong login
password. -/
theorem c7_auth_failure_statuses_witness :
    authenticateOp envEx 0 .missing dbEx = .error (401, "Authorization header required") ∧
    authenticateOp envEx 0 (.bearer ⟨"u1", 100, "bad"⟩) dbEx = .error (401, "Invalid token") ∧
    authenticateOp envEx 0 (.bearer ⟨"zz", 100, "s"⟩) dbEx = .error (401, "User not found") ∧
    (refreshOp envEx 0 none dbEx).1.status = 401 ∧
    loginOp envEx 0 "nobody@x.y" "password" dbEx =
      ({ status := 400, error := some "Invalid credentials" }, dbEx) ∧
    loginOp envEx 0 "a@b.c" "wrongpass" dbEx =
      ({ status := 400, error := some "Invalid credentials" }, dbEx) :=
  ⟨c7_auth_failure_statuses.1 envEx 0 dbEx,
   c7_auth_failure_statuses.2.1 envEx 0 ⟨"u1", 100, "bad"⟩ dbEx (by decide),
   c7_auth_failure_statuses.2.2.1 envEx 0 ⟨"zz", 100, "s"⟩ dbEx "zz" (by decide) (by decide),
   c7_auth_failure_statuses.2.2.2.1 envEx 0 none dbEx (by decide),
   c7_auth_failure_statuses.2.2.2.2.1 envEx 0 "nobody@x.y" "password" dbEx (by decide) (by decide),
   c7_auth_failure_statuses.2.2.2.2.2 envEx 0 "a@b.c" "wrongpass" dbEx userEx (by decide)
     (by decide) (by decide)⟩

/-- C8.  Every generated OTP is the decimal string of a number in
100000–999999 (six decimal digits); registration stores it with an
expiry exactly 10 minutes (600000 ms) after the generation instant, and
a resend overwrites the stored OTP and expiry with the fresh values. -/
theorem c8_otp_six_digits_ten_minutes :
    (∀ rand : Nat, 100000 ≤ otpNat rand ∧ otpNat rand ≤ 999999 ∧
      (Nat.digits 10 (otpNat rand)).length = 6 ∧
      generateOtp rand = toString (otpNat rand)) ∧
    (∀ (nowMs rand salt : Nat) (newId email pw : String) (db : DB),
      ¬ pw.length < 6 →
      db.find? (fun v => v.email == email) = none →
      (registerOp nowMs rand salt newId email pw db).2 =
        db ++ [{ id := newId, email := email, password := argonHash pw salt,
                 emailVerificationOtp := some (generateOtp rand),
                 emailVerificationExpires := some (nowMs + 10 * 60 * 1000),
                 isEmailVerified := false }]) ∧
    (∀ (nowMs rand : Nat) (email : String) (db : DB) (u : User),
      db.find? (fun v => v.email == email) = some u →
      u.isEmailVerified = false →
      (resendOtpOp nowMs rand email db).2 =
        db.map fun v => if v.id = u.id then
          { u with emailVerificationOtp := some (generateOtp rand),
                   emailVerificationExpires := some (nowMs + 10 * 60 * 1000) } else v) := by
  refine ⟨?_, ?_, ?_⟩
  · intro rand
    exact ⟨(otpNat_bounds rand).1, (otpNat_bounds rand).2, otpNat_digits rand, rfl⟩
  · intro nowMs rand salt newId email pw db hlen hf
    simp [registerOp, hlen, hf]
  · intro nowMs rand email db u hf hver
    simp [resendOtpOp, hf, hver]

/-- Closed instance of `c8_otp_six_digits_ten_minutes`: the OTP bounds
and digit count at a concrete sample, a concrete registration, and a
concrete resend overwriting a live OTP. -/
theorem c8_otp_six_digits_ten_minutes_witness :
    (100000 ≤ otpNat 123456789 ∧ otpNat 123456789 ≤ 999999 ∧
      (Nat.digits 10 (otpNat 123456789)).length = 6 ∧
      generateOtp 123456789 = toString (otpNat 123456789)) ∧
    ((registerOp 5000 42 3 "u9" "new@b.c" "secret9" dbEx).2 =
      dbEx ++ [{ id := "u9", email := "new@b.c", password := argonHash "secret9" 3,
                 emailVerificationOtp := some (generateOtp 42),
                 emailVerificationExpires := some (5000 + 10 * 60 * 1000),
                 isEmailVerified := false }]) ∧
    ((resendOtpOp 7000 99 "b@b.c" [userOtp]).2 =
      [userOtp].map fun v => if v.id = userOtp.id then
        { userOtp with emailVerificationOtp := some (generateOtp 99),
                       emailVerificationExpires := some (7000 + 10 * 60 * 1000) } else v) :=
  ⟨c8_otp_six_digits_ten_minutes.1 123456789,
   c8_otp_six_digits_ten_minutes.2.1 5000 42 3 "u9" "new@b.c" "secret9" dbEx
     (by decide) (by decide),
   c8_otp_six_digits_ten_minutes.2.2 7000 99 "b@b.c" [userOtp] userOtp
     (by decide) (by decide)⟩

/-- C9.  A login with correct credentials for an unverified account is
rejected with a 400 carrying `requiresVerification: true`, issues no
tokens, and leaves the store unchanged; and whenever login issues a
refresh token at all, the account it found is verified. -/
theorem c9_unverified_login_blocked :
    (∀ (env : Env) (nowMs : Nat) (email pw : String) (db : DB) (u : User),
      ¬ pw.length = 0 →
      db.find? (fun v => v.email == email) = some u →
      argonVerify u.password pw = true → u.isEmailVerified = false →
      loginOp env nowMs email pw db =
        ({ status := 400, error := some "Email not verified",
           message := some "Please verify your email before logging in.",
           requiresVerification := some true }, db)) ∧
    (∀ (env : Env) (nowMs : Nat) (email pw : String) (db : DB) (rt : Jwt),
      (loginOp env nowMs email pw db).1.refreshToken = some rt →
      ∃ u, db.find? (fun v => v.email == email) = some u ∧ u.isEmailVerified = true) := by
  constructor
  · intro env nowMs email pw db u hlen hf hpw hver
    simp [loginOp, hlen, hf, hpw, hver]
  · intro env nowMs email pw db rt hrt
    rcases loginOp_cases env nowMs email pw db with ⟨u, hf, _, hver, _, _⟩ | ⟨_, hnone, _⟩
    · exact ⟨u, hf, hver⟩
    · rw [hnone] at hrt
      cases hrt

/-- Closed instance of `c9_unverified_login_blocked`: the unverified
account `userOtp` presents its correct password and is rejected with
`requiresVerification`, while a store issuing a token contains a
verified account. -/
theorem c9_unverified_login_blocked_witness :
    (loginOp envEx 0 "b@b.c" "secret1" [userOtp] =
      ({ status := 400, error := some "Email not verified",
         message := some "Please verify your email before logging in.",
         requiresVerification := some true }, [userOtp])) ∧
    (∃ u, dbEx.find? (fun v => v.email == "a@b.c") = some u ∧ u.isEmailVerified = true) :=
  ⟨c9_unverified_login_blocked.1 envEx 0 "b@b.c" "secret1" [userOtp] userOtp
     (by decide) (by decide) (by decide) (by decide),
   c9_unverified_login_blocked.2 envEx 0 "a@b.c" "secret1" dbEx
     (generateTokens envEx 0 userEx.id).2 (by decide)⟩

/-- C10.  Google sign-in never consults `isEmailVerified`: with a valid
provider payload it issues and persists a fresh token pair for the
found account with no hypothesis on its verified flag, and an account
it provisions is created with the entity default `isEmailVerified =
false` and a password hashing the random hex string; 16 random bytes
hex-encode to 32 characters. -/
theorem c10_google_ignores_verification :
    (∀ (env : Env) (nowMs salt : Nat) (newId : String) (rnd : List Nat) (email : String)
        (db : DB) (u : User),
      db.find? (fun v => v.email == email) = some u →
      googleOp env nowMs salt newId rnd (.valid email) db =
        ({ status := 200, message := some "Signed in with Google",
           accessToken := some (generateTokens env nowMs u.id).1,
           refreshToken := some (generateTokens env nowMs u.id).2 },
         db.map fun v => if v.id = u.id then
           { u with refreshToken := some (generateTokens env nowMs u.id).2 } else v)) ∧
    (∀ (env : Env) (nowMs salt : Nat) (newId : String) (rnd : List Nat) (email : String)
        (db : DB),
      db.find? (fun v => v.email == email) = none →
      googleOp env nowMs salt newId rnd (.valid email) db =
        ({ status := 200, message := some "Signed in with Google",
           accessToken := some (generateTokens env nowMs newId).1,
           refreshToken := some (generateTokens env nowMs newId).2 },
         (db ++ [({ id := newId, email := email,
                    password := argonHash (String.mk (hexOfBytes rnd)) salt } : User)]).map
           fun v => if v.id = newId then
             ({ id := newId, email := email,
                password := argonHash (String.mk (hexOfBytes rnd)) salt,
                refreshToken := some (generateTokens env nowMs newId).2 } : User) else v) ∧
      ({ id := newId, email := email,
         password := argonHash (String.mk (hexOfBytes rnd)) salt } : User).isEmailVerified =
        false) ∧
    (∀ rnd : List Nat, rnd.length = 16 → (hexOfBytes rnd).length = 32) := by
  refine ⟨?_, ?_, ?_⟩
  · intro env nowMs salt newId rnd email db u hf
    simp [googleOp, hf]
  · intro env nowMs salt newId rnd email db hf
    exact ⟨by simp [googleOp, hf], rfl⟩
  · intro rnd hlen
    rw [hexOfBytes_length, hlen]

/-- Closed instance of `c10_google_ignores_verification`: Google
sign-in issues tokens to the unverified account `userOtp`, provisions a
fresh unverified account on an empty store, and 16 bytes hex-encode to
32 characters. -/
theorem c10_google_ignores_verification_witness :
    (googleOp envEx 0 0 "g9" [1, 2] (.valid "b@b.c") [userOtp] =
      ({ status := 200, message := some "Signed in with Google",
         accessToken := some (generateTokens envEx 0 userOtp.id).1,
         refreshToken := some (generateTokens envEx 0 userOtp.id).2 },
       [userOtp].map fun v => if v.id = userOtp.id then
         { userOtp with refreshToken := some (generateTokens envEx 0 userOtp.id).2 } else v)) ∧
    (googleOp envEx 0 0 "g1" [1, 2] (.valid "g@x.y") [] =
      ({ status := 200, message := some "Signed in with Google",
         accessToken := some (generateTokens envEx 0 "g1").1,
         refreshToken := some (generateTokens envEx 0 "g1").2 },
       (([] : DB) ++ [({ id := "g1", email := "g@x.y",
                         password := argonHash (String.mk (hexOfBytes [1, 2])) 0 } : User)]).map
         fun v => if v.id = "g1" then
           ({ id := "g1", email := "g@x.y",
              password := argonHash (String.mk (hexOfBytes [1, 2])) 0,
              refreshToken := some (generateTokens envEx 0 "g1").2 } : User) else v) ∧
     ({ id := "g1", email := "g@x.y",
        password := argonHash (String.mk (hexOfBytes [1, 2])) 0 } : User).isEmailVerified =
       false) ∧
    (hexOfBytes (List.replicate 16 171)).length = 32 :=
  ⟨c10_google_ignores_verification.1 envEx 0 0 "g9" [1, 2] "b@b.c" [userOtp] userOtp (by decide),
   c10_google_ignores_verification.2.1 envEx 0 0 "g1" [1, 2] "g@x.y" [] (by decide),
   c10_google_ignores_verification.2.2 (List.replicate 16 171) (by decide)⟩

end TodoProshore
